import Mathlib

/-!
Verification of the mortgage affordability calculator
(`src/mortgage_analyzer.py`) against its specification.

The Python arithmetic is modelled over `ℚ` (exact arithmetic; the source
performs no rounding before display time).  Python raises
`ZeroDivisionError` on division by a zero denominator, so the one
division whose denominator depends on the input — the DTI division by
`gross_monthly_income = income / 12` — makes `calculate_affordability`
fallible; it is modelled with an `Option` result, `none` standing for
the raised exception.
-/

namespace MortgageAnalyzer

/-- Core financial constant from the source: `INCOME_MULTIPLIER = 4.5`. -/
def INCOME_MULTIPLIER : ℚ := 4.5

/-- Core financial constant from the source: `MORTGAGE_TERM_YEARS = 30`. -/
def MORTGAGE_TERM_YEARS : ℕ := 30

/-- The dictionary returned by `calculate_affordability` (source lines 36–45). -/
structure AffordabilityResult where
  income : ℚ
  deposit : ℚ
  monthly_debts : ℚ
  interest_rate : ℚ
  max_loan_amount : ℚ
  affordable_property_price : ℚ
  estimated_monthly_payment : ℚ
  dti_ratio : ℚ
  deriving Repr, DecidableEq

/-- The arithmetic body of `calculate_affordability` (source lines 18–45),
assuming no division raises.  Each `let` mirrors one assignment of the
source. -/
def affordability_result (income deposit monthly_debts interest_rate_annual : ℚ) :
    AffordabilityResult :=
  let max_loan_from_income := income * INCOME_MULTIPLIER
  let affordable_property_price := max_loan_from_income + deposit
  let loan_amount := max_loan_from_income
  let monthly_interest_rate := interest_rate_annual / 100 / 12
  let number_of_payments : ℕ := MORTGAGE_TERM_YEARS * 12
  let monthly_payment :=
    if 0 < monthly_interest_rate then
      loan_amount * (monthly_interest_rate * (1 + monthly_interest_rate) ^ number_of_payments) /
        ((1 + monthly_interest_rate) ^ number_of_payments - 1)
    else
      loan_amount / (number_of_payments : ℚ)
  let total_monthly_outgoings := monthly_payment + monthly_debts
  let gross_monthly_income := income / 12
  { income := income
    deposit := deposit
    monthly_debts := monthly_debts
    interest_rate := interest_rate_annual
    max_loan_amount := max_loan_from_income
    affordable_property_price := affordable_property_price
    estimated_monthly_payment := monthly_payment
    dti_ratio := total_monthly_outgoings / gross_monthly_income * 100 }

/-- `calculate_affordability` (source lines 11–46).  When
`gross_monthly_income = income / 12` is zero, the DTI division at source
line 34 raises `ZeroDivisionError`; this is the `none` case.  Otherwise
every division has a nonzero denominator (the amortization branch runs
only when `monthly_interest_rate > 0`, making its denominator
`(1+r)^360 - 1 > 0`) and the dictionary is returned. -/
def calculate_affordability (income deposit monthly_debts interest_rate_annual : ℚ) :
    Option AffordabilityResult :=
  if income / 12 = 0 then none
  else some (affordability_result income deposit monthly_debts interest_rate_annual)

/-- The hardcoded scenario table of `run_scenario_testing`
(source lines 141–145), in Python dict insertion order: label,
rate, deposit. -/
def scenario_table (deposit base_rate : ℚ) : List (String × ℚ × ℚ) :=
  [("Base Case", base_rate, deposit),
   ("High Interest Rate (+1.5%)", base_rate + 1.5, deposit),
   ("Lower Deposit (-£10,000)", base_rate, deposit - 10000)]

/-- `run_scenario_testing` (source lines 136–158).  Scenarios whose
deposit is negative are skipped; otherwise `calculate_affordability`
is invoked and its (possibly raising) result appended.  An exception
raised inside the loop propagates out, hence the `Option` fold. -/
def run_scenario_testing (income deposit monthly_debts base_rate : ℚ) :
    Option (List (String × AffordabilityResult)) :=
  (scenario_table deposit base_rate).foldlM
    (fun acc s =>
      if s.2.2 < 0 then some acc
      else (calculate_affordability income s.2.2 monthly_debts s.2.1).map
        (fun res => acc ++ [(s.1, res)]))
    []

/-- When `income ≠ 0` no division raises and `calculate_affordability`
returns the computed dictionary. -/
lemma calculate_affordability_eq_some
    (income deposit monthly_debts interest_rate_annual : ℚ) (h : income ≠ 0) :
    calculate_affordability income deposit monthly_debts interest_rate_annual =
      some (affordability_result income deposit monthly_debts interest_rate_annual) := by
  have h12 : income / 12 ≠ 0 := by
    simp [div_eq_zero_iff, h]
  simp [calculate_affordability, h12]

/-- Claim C3: for every income > 0 and every deposit,
`calculate_affordability` returns `max_loan_amount = income × 4.5`
exactly and `affordable_property_price = max_loan_amount + deposit`. -/
theorem max_loan_and_property_price (income deposit monthly_debts rate : ℚ)
    (h : 0 < income) :
    ∃ res, calculate_affordability income deposit monthly_debts rate = some res ∧
      res.max_loan_amount = income * 4.5 ∧
      res.affordable_property_price = res.max_loan_amount + deposit :=
  ⟨_, calculate_affordability_eq_some _ _ _ _ (ne_of_gt h), rfl, rfl⟩

/-- Witness for C3 at income = 60000, deposit = 20000, debts = 300, rate = 5. -/
theorem max_loan_and_property_price_witness :
    ∃ res, calculate_affordability 60000 20000 300 5 = some res ∧
      res.max_loan_amount = 60000 * 4.5 ∧
      res.affordable_property_price = res.max_loan_amount + 20000 :=
  max_loan_and_property_price 60000 20000 300 5 (by norm_num)

/-- Claim C2: for every input with annual rate 0 (and a non-raising income),
the estimated monthly payment is `loanAmount / 360` with
`loanAmount = income × 4.5`. -/
theorem zero_rate_payment (income deposit monthly_debts : ℚ) (h : income ≠ 0) :
    ∃ res, calculate_affordability income deposit monthly_debts 0 = some res ∧
      res.estimated_monthly_payment = income * 4.5 / 360 := by
  refine ⟨_, calculate_affordability_eq_some _ _ _ _ h, ?_⟩
  norm_num [affordability_result, INCOME_MULTIPLIER, MORTGAGE_TERM_YEARS]

/-- Witness for C2 at income = 60000, deposit = 20000, debts = 300. -/
theorem zero_rate_payment_witness :
    ∃ res, calculate_affordability 60000 20000 300 0 = some res ∧
      res.estimated_monthly_payment = 60000 * 4.5 / 360 :=
  zero_rate_payment 60000 20000 300 (by norm_num)

/-- Claim C9: for every input with a negative annual rate (and a non-raising
income), the guard `monthly_interest_rate > 0` fails, so the zero-rate
branch runs and the payment is `loanAmount / 360`; the amortization
formula is never evaluated at a negative rate. -/
theorem negative_rate_takes_zero_branch (income deposit monthly_debts rate : ℚ)
    (hrate : rate < 0) (h : income ≠ 0) :
    ∃ res, calculate_affordability income deposit monthly_debts rate = some res ∧
      res.estimated_monthly_payment = income * 4.5 / 360 := by
  refine ⟨_, calculate_affordability_eq_some _ _ _ _ h, ?_⟩
  have hneg : ¬ (0 < rate / 100 / 12) := by
    simp only [not_lt]
    linarith
  norm_num [affordability_result, INCOME_MULTIPLIER, MORTGAGE_TERM_YEARS, hneg]

/-- Witness for C9 at rate = -1. -/
theorem negative_rate_takes_zero_branch_witness :
    ∃ res, calculate_affordability 60000 20000 300 (-1) = some res ∧
      res.estimated_monthly_payment = 60000 * 4.5 / 360 :=
  negative_rate_takes_zero_branch 60000 20000 300 (-1) (by norm_num) (by norm_num)

/-- Claim C4: for every input with income ≠ 0, the returned `dti_ratio`
equals `((estimated_monthly_payment + monthlyDebts) / (income / 12)) × 100`. -/
theorem dti_ratio_formula (income deposit monthly_debts rate : ℚ) (h : income ≠ 0) :
    ∃ res, calculate_affordability income deposit monthly_debts rate = some res ∧
      res.dti_ratio = (res.estimated_monthly_payment + monthly_debts) / (income / 12) * 100 :=
  ⟨_, calculate_affordability_eq_some _ _ _ _ h, rfl⟩

/-- Witness for C4 at income = 60000, deposit = 20000, debts = 300, rate = 5. -/
theorem dti_ratio_formula_witness :
    ∃ res, calculate_affordability 60000 20000 300 5 = some res ∧
      res.dti_ratio = (res.estimated_monthly_payment + 300) / (60000 / 12) * 100 :=
  dti_ratio_formula 60000 20000 300 5 (by norm_num)

/-- Claim C8: `calculate_affordability` is deterministic — two invocations
with identical inputs return identical results in every field. -/
theorem calculate_affordability_deterministic
    (i₁ d₁ m₁ r₁ i₂ d₂ m₂ r₂ : ℚ)
    (hi : i₁ = i₂) (hd : d₁ = d₂) (hm : m₁ = m₂) (hr : r₁ = r₂) :
    calculate_affordability i₁ d₁ m₁ r₁ = calculate_affordability i₂ d₂ m₂ r₂ := by
  rw [hi, hd, hm, hr]

/-- Witness for C8 at income = 60000, deposit = 20000, debts = 300, rate = 5. -/
theorem calculate_affordability_deterministic_witness :
    calculate_affordability 60000 20000 300 5 = calculate_affordability 60000 20000 300 5 :=
  calculate_affordability_deterministic 60000 20000 300 5 60000 20000 300 5 rfl rfl rfl rfl

/-- Claim C1: for every input with annual rate > 0 (and a non-raising
income), the returned monthly payment satisfies the amortization identity
`payment × ((1+r)^360 − 1) = loanAmount × r × (1+r)^360` with
`r = rate / 1200` and `loanAmount = income × 4.5`. -/
theorem amortization_identity (income deposit monthly_debts rate : ℚ)
    (hrate : 0 < rate) (h : income ≠ 0) :
    ∃ res, calculate_affordability income deposit monthly_debts rate = some res ∧
      res.estimated_monthly_payment * ((1 + rate / 1200) ^ (360 : ℕ) - 1) =
        income * 4.5 * (rate / 1200) * (1 + rate / 1200) ^ (360 : ℕ) := by
  have hr : rate / 100 / 12 = rate / 1200 := by ring
  have hr0 : 0 < rate / 1200 := by positivity
  have e360 : MORTGAGE_TERM_YEARS * 12 = 360 := by norm_num [MORTGAGE_TERM_YEARS]
  have key : (affordability_result income deposit monthly_debts rate).estimated_monthly_payment =
      income * INCOME_MULTIPLIER * (rate / 1200 * (1 + rate / 1200) ^ (360 : ℕ)) /
        ((1 + rate / 1200) ^ (360 : ℕ) - 1) := by
    simp only [affordability_result, e360, hr]
    rw [if_pos hr0]
  have hpow : 1 < (1 + rate / 1200) ^ (360 : ℕ) :=
    one_lt_pow₀ (by linarith) (by norm_num)
  have hden : (1 + rate / 1200) ^ (360 : ℕ) - 1 ≠ 0 :=
    sub_ne_zero.mpr (ne_of_gt hpow)
  refine ⟨_, calculate_affordability_eq_some _ _ _ _ h, ?_⟩
  rw [key, div_mul_cancel₀ _ hden]
  simp only [INCOME_MULTIPLIER]
  generalize (1 + rate / 1200) ^ (360 : ℕ) = P
  ring

/-- Witness for C1 at income = 60000, deposit = 20000, debts = 300, rate = 5. -/
theorem amortization_identity_witness :
    ∃ res, calculate_affordability 60000 20000 300 5 = some res ∧
      res.estimated_monthly_payment * ((1 + 5 / 1200) ^ (360 : ℕ) - 1) =
        60000 * 4.5 * (5 / 1200) * (1 + 5 / 1200) ^ (360 : ℕ) :=
  amortization_identity 60000 20000 300 5 (by norm_num) (by norm_num)

/-- Claim C5 counterexample: at income = 0 the code does not return a
result at all — the DTI division `total_monthly_outgoings /
gross_monthly_income` raises `ZeroDivisionError` (Python raises on float
division by zero rather than producing an infinite or NaN value), so
nothing is rendered. -/
theorem zero_income_counterexample :
    calculate_affordability 0 20000 300 5 = none := by
  simp [calculate_affordability]

/-- Claim C5 (amended): for income = 0, `calculate_affordability` raises
`ZeroDivisionError` at the DTI division (modelled as `none`) instead of
returning a result; no non-finite ratio is ever produced or rendered. -/
theorem zero_income_raises (deposit monthly_debts rate : ℚ) :
    calculate_affordability 0 deposit monthly_debts rate = none := by
  simp [calculate_affordability]

/-- Claim C6: a scenario whose perturbed deposit is negative is omitted
from the sequence returned by `run_scenario_testing` without being
computed; with a base deposit below 10000 (e.g. 5000), the
"Lower Deposit (-£10,000)" scenario is absent. -/
theorem lower_deposit_scenario_skipped (income deposit monthly_debts base_rate : ℚ)
    (h : income ≠ 0) (hlow : deposit - 10000 < 0) :
    ∃ l, run_scenario_testing income deposit monthly_debts base_rate = some l ∧
      "Lower Deposit (-£10,000)" ∉ l.map Prod.fst := by
  by_cases hd : deposit < 0
  · refine ⟨[], ?_, by simp⟩
    have hlow' : deposit - 10000 < 0 := by linarith
    simp [run_scenario_testing, scenario_table, List.foldlM, hd, hlow']
  · refine ⟨[("Base Case", affordability_result income deposit monthly_debts base_rate),
             ("High Interest Rate (+1.5%)",
               affordability_result income deposit monthly_debts (base_rate + 1.5))],
      ?_, by simp⟩
    simp [run_scenario_testing, scenario_table, List.foldlM,
          calculate_affordability_eq_some _ _ _ _ h, hd, hlow]

/-- Witness for C6 at income = 60000, deposit = 5000, debts = 300, rate = 5:
the perturbed deposit would be −5000 and the scenario is absent. -/
theorem lower_deposit_scenario_skipped_witness :
    ∃ l, run_scenario_testing 60000 5000 300 5 = some l ∧
      "Lower Deposit (-£10,000)" ∉ l.map Prod.fst :=
  lower_deposit_scenario_skipped 60000 5000 300 5 (by norm_num) (by norm_num)

/-- Claim C7: for deposit ≥ 0 (and a non-raising income), the sequence
returned by `run_scenario_testing` holds exactly the non-skipped
scenarios of the fixed three, with labels "Base Case",
"High Interest Rate (+1.5%)", "Lower Deposit (-£10,000)" in exactly
that order. -/
theorem scenario_labels_in_order (income deposit monthly_debts base_rate : ℚ)
    (h : income ≠ 0) (hd : 0 ≤ deposit) :
    ∃ l, run_scenario_testing income deposit monthly_debts base_rate = some l ∧
      l.map Prod.fst =
        if deposit - 10000 < 0 then ["Base Case", "High Interest Rate (+1.5%)"]
        else ["Base Case", "High Interest Rate (+1.5%)", "Lower Deposit (-£10,000)"] := by
  by_cases hlow : deposit - 10000 < 0
  · refine ⟨[("Base Case", affordability_result income deposit monthly_debts base_rate),
             ("High Interest Rate (+1.5%)",
               affordability_result income deposit monthly_debts (base_rate + 1.5))],
      ?_, by simp [hlow]⟩
    simp [run_scenario_testing, scenario_table, List.foldlM,
          calculate_affordability_eq_some _ _ _ _ h, not_lt.mpr hd, hlow]
  · refine ⟨[("Base Case", affordability_result income deposit monthly_debts base_rate),
             ("High Interest Rate (+1.5%)",
               affordability_result income deposit monthly_debts (base_rate + 1.5)),
             ("Lower Deposit (-£10,000)",
               affordability_result income (deposit - 10000) monthly_debts base_rate)],
      ?_, by simp [hlow]⟩
    simp [run_scenario_testing, scenario_table, List.foldlM,
          calculate_affordability_eq_some _ _ _ _ h, not_lt.mpr hd, hlow]

/-- Witness for C7 at income = 60000, deposit = 20000, debts = 300, rate = 5:
all three scenarios survive. -/
theorem scenario_labels_in_order_witness :
    ∃ l, run_scenario_testing 60000 20000 300 5 = some l ∧
      l.map Prod.fst =
        if (20000 : ℚ) - 10000 < 0 then ["Base Case", "High Interest Rate (+1.5%)"]
        else ["Base Case", "High Interest Rate (+1.5%)", "Lower Deposit (-£10,000)"] :=
  scenario_labels_in_order 60000 20000 300 5 (by norm_num) (by norm_num)

/-- Claim C10: for deposit ≥ 0 (and a non-raising income), the first
element of the sequence returned by `run_scenario_testing` is labelled
"Base Case" and its result equals `calculate_affordability` applied to
the unperturbed inputs. -/
theorem scenario_first_is_base_case (income deposit monthly_debts base_rate : ℚ)
    (h : income ≠ 0) (hd : 0 ≤ deposit) :
    ∃ res l, run_scenario_testing income deposit monthly_debts base_rate =
        some (("Base Case", res) :: l) ∧
      calculate_affordability income deposit monthly_debts base_rate = some res := by
  by_cases hlow : deposit - 10000 < 0
  · refine ⟨affordability_result income deposit monthly_debts base_rate,
      [("High Interest Rate (+1.5%)",
         affordability_result income deposit monthly_debts (base_rate + 1.5))],
      ?_, calculate_affordability_eq_some _ _ _ _ h⟩
    simp [run_scenario_testing, scenario_table, List.foldlM,
          calculate_affordability_eq_some _ _ _ _ h, not_lt.mpr hd, hlow]
  · refine ⟨affordability_result income deposit monthly_debts base_rate,
      [("High Interest Rate (+1.5%)",
         affordability_result income deposit monthly_debts (base_rate + 1.5)),
       ("Lower Deposit (-£10,000)",
         affordability_result income (deposit - 10000) monthly_debts base_rate)],
      ?_, calculate_affordability_eq_some _ _ _ _ h⟩
    simp [run_scenario_testing, scenario_table, List.foldlM,
          calculate_affordability_eq_some _ _ _ _ h, not_lt.mpr hd, hlow]

/-- Witness for C10 at income = 50000, deposit = 15000, debts = 200, rate = 4. -/
theorem scenario_first_is_base_case_witness :
    ∃ res l, run_scenario_testing 50000 15000 200 4 =
        some (("Base Case", res) :: l) ∧
      calculate_affordability 50000 15000 200 4 = some res :=
  scenario_first_is_base_case 50000 15000 200 4 (by norm_num) (by norm_num)

end MortgageAnalyzer
